import Mathlib

/-!
Shallow embedding of `src/website-carbon.js` (the later of the two revisions in
the file, whose line numbers the analysis refers to): a CLI tool that resolves a
set of URLs, measures per-page transfer size through a browser, converts bytes
to CO2e grams via the `@tgwf/co2` carbon model, rates the result against fixed
percentile tables, and prints a summary.

Numbers are modelled as `ℚ`.  JavaScript-specific values that matter to the
program's observable behaviour (`undefined`, `null`, un-awaited promises, `NaN`
from `0 / 0`) get explicit small types.  Effectful steps (file reads, sitemap
fetches, page loads) are parameters gathered in a `World` record, and
`process.exit` is an `Except` error; the program produces a trace of observable
events plus an exit code.
-/

namespace WebsiteCarbon

instance {α β : Type} [DecidableEq α] [DecidableEq β] : DecidableEq (Except α β) := fun a b =>
  match a, b with
  | .ok x, .ok y => if h : x = y then .isTrue (by rw [h]) else .isFalse (by simp [h])
  | .error x, .error y => if h : x = y then .isTrue (by rw [h]) else .isFalse (by simp [h])
  | .ok _, .error _ => .isFalse (by simp)
  | .error _, .ok _ => .isFalse (by simp)

/-- A JavaScript value as it flows through the rating plumbing: `undefined`,
`null`, a string, or a pending promise (the un-awaited result of an async
boolean lookup, which may itself have rejected). -/
inductive JSVal where
  | undef : JSVal
  | null : JSVal
  | str : String → JSVal
  | promise : Except String Bool → JSVal
deriving Repr, DecidableEq

/-- JavaScript truthiness for the values above: `undefined` and `null` are
falsy, the empty string is falsy, and any object — a promise included,
whatever its eventual outcome — is truthy. -/
def truthy : JSVal → Bool
  | .undef => false
  | .null => false
  | .str s => !s.isEmpty
  | .promise _ => true

/-- A JavaScript number restricted to what the summary arithmetic can produce:
a rational, `NaN`, or `Infinity`. -/
inductive JSNum where
  | nan : JSNum
  | inf : JSNum
  | num : ℚ → JSNum
deriving Repr, DecidableEq

/-- JavaScript division `a / b` for the sums the summary divides: division by
zero gives `NaN` for `0 / 0` and `Infinity` otherwise. -/
def jsDiv (a b : ℚ) : JSNum :=
  if b = 0 then (if a = 0 then .nan else .inf) else .num (a / b)

/-- The configuration values mapped from the parsed arguments
(`sourceFile`, `outputFormat`, `maxPages`, `measureEvent`, `measureMode`,
`carbonModel`, `carbonRatings`; source lines 550–556). -/
structure Config where
  sourceFile : Option String
  outputFormat : String
  maxPages : ℕ
  measureEvent : String
  measureMode : String
  carbonModel : String
  carbonRatings : Bool
deriving Repr, DecidableEq

/-- The default configuration: no `--file`, `cli` output, 100 pages,
`idle` event, `cdp` mode, `swd` model, ratings on. -/
def cfgDefault : Config := ⟨none, "cli", 100, "idle", "cdp", "swd", true⟩

/-- `modelSupportsCarbonRating`, as left by the model-selection `switch`
(lines 582–599): `false` only in the `'1byte'` arm; `true` in the `swd3` arm
and in the `swd`/`swd4`/default arm. -/
def modelSupportsCarbonRating (carbonModel : String) : Bool :=
  carbonModel != "1byte"

/-- One percentile table: CO2e upper bound (grams) per band. -/
structure RatingTable where
  fifthPercentile : ℚ
  tenthPercentile : ℚ
  twentiethPercentile : ℚ
  thirtiethPercentile : ℚ
  fortiethPercentile : ℚ
  fiftiethPercentile : ℚ
deriving Repr, DecidableEq

/-- `SWDM3_RATINGS` (lines 559–566). -/
def SWDM3_RATINGS : RatingTable :=
  ⟨95/1000, 186/1000, 341/1000, 493/1000, 656/1000, 846/1000⟩

/-- `SWDM4_RATINGS` (lines 567–574). -/
def SWDM4_RATINGS : RatingTable :=
  ⟨40/1000, 79/1000, 145/1000, 209/1000, 278/1000, 359/1000⟩

/-- The thresholds of a table as a list, ascending band order. -/
def ratingThresholds (t : RatingTable) : List ℚ :=
  [t.fifthPercentile, t.tenthPercentile, t.twentiethPercentile,
   t.thirtiethPercentile, t.fortiethPercentile, t.fiftiethPercentile]

/-- The table `carbonRating` destructures (line 702):
`(carbonModel === 'swd3') ? SWDM3_RATINGS : SWDM4_RATINGS`. -/
def ratingTableFor (carbonModel : String) : RatingTable :=
  if carbonModel = "swd3" then SWDM3_RATINGS else SWDM4_RATINGS

/-- The threshold ladder of `carbonRating` (lines 706–720): first threshold the
value is `<=` wins, else `"F"`. -/
def ratingScale (carbonModel : String) (co2e : ℚ) : String :=
  let t := ratingTableFor carbonModel
  if co2e ≤ t.fifthPercentile then "A+"
  else if co2e ≤ t.tenthPercentile then "A"
  else if co2e ≤ t.twentiethPercentile then "B"
  else if co2e ≤ t.thirtiethPercentile then "C"
  else if co2e ≤ t.fortiethPercentile then "D"
  else if co2e ≤ t.fiftiethPercentile then "E"
  else "F"

/-- The same ladder applied to a JavaScript number, as the summary does with a
possibly-`NaN` average: `NaN` and `Infinity` fail every `<=` comparison, so
they fall through to `"F"`. -/
def ratingScaleJS (carbonModel : String) : JSNum → String
  | .num q => ratingScale carbonModel q
  | _ => "F"

/-- The shape of the bands as the spec words them: the six percentile upper
bounds in ascending order, each with its band label. -/
def ratingBands (t : RatingTable) : List (ℚ × String) :=
  [(t.fifthPercentile, "A+"), (t.tenthPercentile, "A"),
   (t.twentiethPercentile, "B"), (t.thirtiethPercentile, "C"),
   (t.fortiethPercentile, "D"), (t.fiftiethPercentile, "E")]

/-- Spec-side rating derivation, for comparison with `ratingScale`: return the
band label of the first threshold the value is less-than-or-equal-to, else the
worst band `"F"`. -/
def firstBandLE (co2e : ℚ) : List (ℚ × String) → String
  | [] => "F"
  | (limit, label) :: rest => if co2e ≤ limit then label else firstBandLE co2e rest

/-- The shared mutable `co2Data` (line 577), initialised to `{}`: reading
`.total` or `.rating` before any `bytesToCO2` call yields `undefined`
(`total = none`, `rating = .undef`). -/
structure CO2Data where
  total : Option ℚ
  rating : JSVal
deriving Repr, DecidableEq

/-- `co2Data = {}` at module load. -/
def initialCO2Data : CO2Data := ⟨none, .undef⟩

/-- Modelled from the spec: the external carbon model (the `@tgwf/co2` library,
absent from `src/`) — "given bytes transferred (+ a green-hosting flag),
returns estimated CO2e in grams, optionally with a model-native rating".
`perByteTotal` is `data.total`, `perByteRating` is `data.rating`, both as
functions of the bytes and the green flag passed to `model.perByte`. -/
structure CarbonModel where
  perByteTotal : ℚ → Bool → ℚ
  perByteRating : ℚ → Bool → String

/-- `bytesToCO2` (lines 639–679), with the shared `co2Data` made an explicit
state argument.  Returns `(returned grams, new co2Data, whether the external
model was called)`.  Zero bytes short-circuits: stores total 0 and rating
`"A+"`/`null`, returns 0 without calling `model.perByte`.  Otherwise the
`swd3` arm calls `model.perByte(bytes)` (green flag left at its default
`false`) and every other model calls `model.perByte(bytes, isGreen)`; the
numeric value returned is `data.total` on every arm. -/
def bytesToCO2 (cfg : Config) (m : CarbonModel) (bytes : ℚ) (isGreen : Bool)
    (_s : CO2Data) : ℚ × CO2Data × Bool :=
  if bytes = 0 then
    (0, ⟨some 0, if modelSupportsCarbonRating cfg.carbonModel then .str "A+" else .null⟩,
     false)
  else
    let green := if cfg.carbonModel = "swd3" then false else isGreen
    let total := m.perByteTotal bytes green
    let rating := m.perByteRating bytes green
    (total,
     ⟨some total, if modelSupportsCarbonRating cfg.carbonModel then .str rating else .null⟩,
     true)

/-- `carbonRating` (lines 693–724), with the shared `co2Data` explicit.  With
an explicit `co2e` it runs the threshold ladder over the version-appropriate
table; with the default `null` argument it reads back `co2Data.rating` (or
`null` when the model does not support ratings). -/
def carbonRating (cfg : Config) (co2e : Option ℚ) (s : CO2Data) : JSVal :=
  match co2e with
  | some q => .str (ratingScale cfg.carbonModel q)
  | none => if modelSupportsCarbonRating cfg.carbonModel then s.rating else .null

/-- The record `measurePage` returns on its non-`null` path (lines 1001–1006):
`co2` stays `null` (`none`) when `page.goto` failed, and `rating` is whatever
the no-argument `carbonRating()` reads back from `co2Data`. -/
structure PageRecord where
  url : String
  bytes : ℚ
  co2 : Option ℚ
  rating : JSVal
deriving Repr, DecidableEq

/-- One pass' aggregate block (lines 1141–1153): count, the two `sum / count`
averages (JavaScript numbers, so `NaN` when the count is zero), and the overall
rating line when one is printed. -/
structure RunSummary where
  pagesAssessed : ℕ
  avgBytes : JSNum
  avgCO2e : JSNum
  overallRating : Option String
deriving Repr, DecidableEq

/-- The observable events of a run, in program order. -/
inductive Ev where
  | warnInvalidFileUrl : String → Ev
  | errFileRead : String → Ev
  | sitemapChecked : Ev
  | crawlRun : Ev
  | noUrlsExit : Ev
  | hostingChecked : Bool → Ev
  | unhandledRejection : Ev
  | browserLaunched : Ev
  | measureStart : String → Ev
  | warnOuter : String → Ev
  | errUnsupportedMode : String → Ev
  | warnGoto : String → Ev
  | measureDone : String → Ev
  | summaryPrinted : RunSummary → Ev
  | exited : ℕ → Ev
deriving Repr, DecidableEq

/-- The effectful collaborators of one run, as pure functions: URL validation
(`new URL` succeeding), origin extraction, `fs.readFileSync` (as lines),
the sitemap fetch, the crawler, the green-hosting lookup, and per-URL browser
behaviour — whether page/CDP-session setup succeeds, the bytes the network
listener accumulates during navigation, and whether `page.goto` resolves. -/
structure World where
  validUrl : String → Bool
  origin : String → String
  fileRead : String → Except String (List String)
  sitemap : Except String (List String)
  crawl : List String
  hosting : Except String Bool
  sessionOk : String → Bool
  loadBytes : String → ℚ
  loadOk : String → Bool

/-- The summary block of `main` (lines 1140–1153): `numResults`, the two
`reduce(...) / numResults` averages — JavaScript division, so `0 / 0 = NaN`
on an empty pass, and `sum + r.co2` coerces a `null` co2 to 0 — and the
`Overall Rating` line, printed only when
`modelSupportsCarbonRating && carbonRatings`, via `carbonRating(avgCO2e)`. -/
def summarize (cfg : Config) (results : List PageRecord) : RunSummary :=
  let numResults : ℚ := results.length
  let avgBytes := jsDiv (results.map PageRecord.bytes).sum numResults
  let avgCO2e := jsDiv (results.map (fun r => r.co2.getD 0)).sum numResults
  ⟨results.length, avgBytes, avgCO2e,
   if modelSupportsCarbonRating cfg.carbonModel && cfg.carbonRatings then
     some (ratingScaleJS cfg.carbonModel avgCO2e)
   else none⟩

/-- `measurePage` (lines 914–1011), with `co2Data` threaded and `process.exit`
as `Except`.  Page/viewport/CDP-session setup runs first (`.measureStart`); a
failure there is caught by the outer `catch`, which warns and returns `null`.
Then the mode dispatch: a mode other than `'cdp'`/`'buffer'` prints an error
and calls `process.exit(1)`.  Then navigation: on success `bytesToCO2` runs
(overwriting `co2Data`); on failure the inner `catch` only warns, `co2` stays
`null`, and — either way — a non-`null` record is returned whose `rating` field
is the no-argument `carbonRating()` read of the current `co2Data` (stale when
this page's `bytesToCO2` never ran).  `clearCache` only touches browser cache
state and has no further observable effect here. -/
def measurePage (w : World) (cfg : Config) (m : CarbonModel) (url : String)
    (_clearCache : Bool) (isGreen : Bool) (s : CO2Data) :
    List Ev × Except ℕ (Option PageRecord × CO2Data) :=
  if w.sessionOk url then
    if cfg.measureMode = "cdp" ∨ cfg.measureMode = "buffer" then
      let totalBytes := w.loadBytes url
      if w.loadOk url then
        let (co2, s', _) := bytesToCO2 cfg m totalBytes isGreen s
        let rating :=
          if modelSupportsCarbonRating cfg.carbonModel && cfg.carbonRatings then
            carbonRating cfg none s'
          else .null
        ([.measureStart url, .measureDone url],
         .ok (some ⟨url, totalBytes, some co2, rating⟩, s'))
      else
        let rating :=
          if modelSupportsCarbonRating cfg.carbonModel && cfg.carbonRatings then
            carbonRating cfg none s
          else .null
        ([.measureStart url, .warnGoto url],
         .ok (some ⟨url, totalBytes, none, rating⟩, s))
    else
      ([.measureStart url, .errUnsupportedMode cfg.measureMode, .exited 1], .error 1)
  else
    ([.measureStart url, .warnOuter url], .ok (none, s))

/-- `processInBatches` (lines 1058–1068) for a task with no observable effect
beyond its optional result: slices the items into groups of `batchSize`, runs
the group, and keeps only the non-`null` results, group after group.  The
`fuel` mirrors the loop index reaching `items.length`; a `batchSize` of zero
would loop forever in the source, so the fuel bottoms out instead. -/
def processInBatchesAux (fuel : ℕ) (items : List α) (batchSize : ℕ)
    (taskFn : α → Option β) : List β :=
  match fuel, items with
  | 0, _ => []
  | _, [] => []
  | fuel + 1, items =>
      ((items.take batchSize).map taskFn).reduceOption
        ++ processInBatchesAux fuel (items.drop batchSize) batchSize taskFn

/-- `processInBatches` entry point: the loop runs while `i < items.length`. -/
def processInBatches (items : List α) (batchSize : ℕ) (taskFn : α → Option β) :
    List β :=
  processInBatchesAux items.length items batchSize taskFn

/-- One pass of `main`: `processInBatches(urls, 3, url => measurePage(...))`
with the task's `co2Data` writes threaded through (within a group the tasks
run concurrently; their interleaving is modelled sequentially, which fixes one
of the admissible orders).  `null` results are filtered out exactly as in
`processInBatches`; a `process.exit` inside a task terminates the whole run. -/
def runPass (w : World) (cfg : Config) (m : CarbonModel) (isGreen : Bool)
    (clearCache : Bool) : List String → CO2Data →
    List Ev × Except ℕ (List PageRecord × CO2Data)
  | [], s => ([], .ok ([], s))
  | url :: rest, s =>
      let (evs, r) := measurePage w cfg m url clearCache isGreen s
      match r with
      | .error c => (evs, .error c)
      | .ok (rec?, s') =>
          let (evs', r') := runPass w cfg m isGreen clearCache rest s'
          (evs ++ evs',
           match r' with
           | .error c => .error c
           | .ok (recs, s'') =>
               .ok ((match rec? with | some rec => rec :: recs | none => recs), s''))

/-- Which URL source `main` uses (line 1077): the file branch is taken only
when `siteUrl === null && sourceFile !== null`; every other combination —
including a run where both a file and a site argument were supplied — takes
the sitemap/crawl branch on the site argument. -/
inductive UrlSource where
  | fromFile : String → UrlSource
  | fromSite : Option String → UrlSource
deriving Repr, DecidableEq

/-- The source-selection condition of `main` (line 1077). -/
def resolveSource : Option String → Option String → UrlSource
  | none, some f => .fromFile f
  | s, _ => .fromSite s

/-- The positional-URL parse (lines 534–547): the last positional argument, if
any, must parse as a URL, else the process reports `Invalid URL` and exits 1
before anything else runs. -/
def parsePositionalUrl (validUrl : String → Bool) (positionals : List String) :
    Except ℕ (Option String) :=
  match positionals.getLast? with
  | none => .ok none
  | some lastArg => if validUrl lastArg then .ok (some lastArg) else .error 1

/-- The line filtering and per-line URL validation of `readUrlsFromFile`
(lines 812–839): trim, drop blanks and `#`/`//` comments, then keep the lines
that parse as URLs, warning per invalid line. -/
def validateFileUrls (validUrl : String → Bool) (lines : List String) :
    List Ev × List String :=
  let kept := (lines.map String.trim).filter fun l =>
    decide (l.length > 0) && !l.startsWith "#" && !l.startsWith "//"
  (kept.filterMap fun u => if validUrl u then none else some (.warnInvalidFileUrl u),
   kept.filter fun u => validUrl u)

/-- The tail of `main` once the URL list is resolved (lines 1097–1154): exit 1
on an empty list; otherwise run the (never-awaited) green-hosting lookup, both
measurement passes over the first `maxPages` URLs, and the cold-pass summary.
`isGreen = greenHosting(siteUrl)` on line 1105 has no `await` and no `catch`:
the value that reaches `if (isGreen)` and the estimation calls is the pending
promise — truthy whatever the lookup returns — and if the lookup rejects, the
rejection has no handler, so Node's default unhandled-rejection policy
terminates the process with a nonzero code. -/
def mainResolved (w : World) (cfg : Config) (m : CarbonModel)
    (urls : List String) (evs : List Ev) : List Ev × ℕ :=
  if urls.isEmpty then (evs ++ [.noUrlsExit, .exited 1], 1)
  else
    let isGreenVal : JSVal := .promise w.hosting
    let evHost := [Ev.hostingChecked (truthy isGreenVal)]
    match w.hosting with
    | .error _ => (evs ++ evHost ++ [.unhandledRejection, .exited 1], 1)
    | .ok _ =>
        let isGreen := truthy isGreenVal
        let urls' := urls.take cfg.maxPages
        let (evCold, rCold) := runPass w cfg m isGreen true urls' initialCO2Data
        match rCold with
        | .error c => (evs ++ evHost ++ [.browserLaunched] ++ evCold, c)
        | .ok (cold, s1) =>
            let (evWarm, rWarm) := runPass w cfg m isGreen false urls' s1
            match rWarm with
            | .error c =>
                (evs ++ evHost ++ [.browserLaunched] ++ evCold ++ evWarm, c)
            | .ok (_, _) =>
                let sum := summarize cfg cold
                (evs ++ evHost ++ [.browserLaunched] ++ evCold ++ evWarm
                   ++ [.summaryPrinted sum, .exited 0], 0)

/-- `main` (lines 1073–1154).  File branch (taken only per `resolveSource`):
an unreadable file reports and exits 1; with zero valid URLs, `urls[0]` is
`undefined` and `new URL(undefined)` throws inside the un-caught async `main`,
terminating the process; otherwise the first URL's origin becomes the site for
the hosting check.  Site branch: sitemap fetch (failure degrades to the empty
list), then the crawler when the sitemap yielded nothing. -/
def mainRun (w : World) (cfg : Config) (m : CarbonModel)
    (siteUrl : Option String) : List Ev × ℕ :=
  match resolveSource siteUrl cfg.sourceFile with
  | .fromFile f =>
      match w.fileRead f with
      | .error _ => ([.errFileRead f, .exited 1], 1)
      | .ok lines =>
          let (warns, urls) := validateFileUrls w.validUrl lines
          match urls with
          | [] => (warns ++ [.unhandledRejection, .exited 1], 1)
          | _ :: _ => mainResolved w cfg m urls warns
  | .fromSite _ =>
      let urls0 := match w.sitemap with | .ok us => us | .error _ => []
      let (evCrawl, urls) :=
        if urls0.isEmpty then ([Ev.crawlRun], w.crawl) else ([], urls0)
      mainResolved w cfg m urls ([Ev.sitemapChecked] ++ evCrawl)

/-- The whole program: module-level argument handling (help exit when neither
a positional URL nor `--file` is given, lines 527–529; positional-URL
validation, lines 535–547) and then `main`. -/
def program (w : World) (cfg : Config) (m : CarbonModel)
    (positionals : List String) : List Ev × ℕ :=
  match parsePositionalUrl w.validUrl positionals with
  | .error c => ([.exited c], c)
  | .ok siteUrl =>
      if positionals.isEmpty && cfg.sourceFile.isNone then ([.exited 0], 0)
      else mainRun w cfg m siteUrl

/-- Modelled from the spec: the Sustainable-Web-Design family byte-to-emissions
conversion of the external carbon model ("given bytes transferred (+ a
green-hosting flag), returns estimated CO2e in grams"; "a model-native 'green'
discount is applied internally by the model") — a fixed per-byte emissions
factor, with a (discounted) factor substituted when the hosting is green; the
native rating is the model's own threshold scale over the total. -/
def swdPerByte (factor greenFactor : ℚ) (nativeRating : ℚ → String) : CarbonModel :=
  ⟨fun bytes green => (if green then greenFactor else factor) * bytes,
   fun bytes green => nativeRating ((if green then greenFactor else factor) * bytes)⟩

/-! Concrete fixtures for closed evaluations. -/

/-- A concrete external model for closed runs: 1 gram per 1000 bytes, native
rating `"A+"` up to 95 bytes and `"F"` above. -/
def testModel : CarbonModel :=
  ⟨fun bytes _ => bytes / 1000, fun bytes _ => if bytes ≤ 95 then "A+" else "F"⟩

/-- A concrete healthy world: every page's session opens, every navigation
succeeds transferring 1000 bytes, the sitemap lists two pages, hosting lookup
answers `false`. -/
def testWorld : World where
  validUrl := fun u => u != "not-a-url"
  origin := fun u => u
  fileRead := fun _ => .ok ["https://file.example/a"]
  sitemap := .ok ["https://example.org/", "https://example.org/about"]
  crawl := []
  hosting := .ok false
  sessionOk := fun _ => true
  loadBytes := fun _ => 1000
  loadOk := fun _ => true

/-- The default configuration with `--file urls.txt` also supplied. -/
def cfgBoth : Config := { cfgDefault with sourceFile := some "urls.txt" }

/-- The default configuration with `--measure-mode bogus`. -/
def cfgBadMode : Config := { cfgDefault with measureMode := "bogus" }

/-- `testWorld` with an unreadable URL file. -/
def worldFileUnreadable : World :=
  { testWorld with fileRead := fun _ => .error "ENOENT: no such file or directory" }

/-- `testWorld` with a green-hosting lookup that rejects. -/
def worldHostFail : World :=
  { testWorld with hosting := .error "service unavailable" }

/-- `testWorld` where every page's browser-side setup fails (the outer `catch`
path of `measurePage`), so every measurement returns `null`. -/
def worldAllFail : World :=
  { testWorld with sessionOk := fun _ => false }

/-- Five page URLs. -/
def urls5 : List String :=
  ["https://e.org/1", "https://e.org/2", "https://e.org/3",
   "https://e.org/4", "https://e.org/5"]

/-- A world for the batch-failure scenario: five sitemap URLs, page #3's
navigation times out (`page.goto` rejects) after its listener saw 100000
bytes; the other pages load 10 bytes each. -/
def worldThirdTimesOut : World :=
  { testWorld with
      sitemap := .ok urls5
      loadBytes := fun u => if u = "https://e.org/3" then 100000 else 10
      loadOk := fun u => u ≠ "https://e.org/3" }

/-- Same five-URL world, but page #3 fails at browser-session setup instead
(the outer `catch` of `measurePage`: page/CDP-session creation throws). -/
def worldThirdSessionFails : World :=
  { worldThirdTimesOut with sessionOk := fun u => u ≠ "https://e.org/3" }

/-! Theorems. -/

/-- The source's threshold ladder agrees with the spec's scan for the first
band whose threshold the value is `≤`. -/
theorem ratingScale_eq_firstBandLE (m : String) (q : ℚ) :
    ratingScale m q = firstBandLE q (ratingBands (ratingTableFor m)) := by
  simp [ratingScale, firstBandLE, ratingBands]

/-- `bytesToCO2` overwrites `co2Data` without reading it: the state it leaves
behind does not depend on the state it was given. -/
theorem bytesToCO2_state_oblivious (cfg : Config) (m : CarbonModel) (b : ℚ)
    (g : Bool) (s s' : CO2Data) :
    (bytesToCO2 cfg m b g s).2.1 = (bytesToCO2 cfg m b g s').2.1 := rfl

/-- C3: with an explicit co2e argument, `carbonRating` compares it ascending
against the six percentile thresholds of the version-appropriate table and
returns the label of the first threshold the value is `≤` (so a value equal to
`fifthPercentile` rates `"A+"`), returns `"F"` above the last threshold, and
reads nothing from the shared `co2Data` state — it is a pure function of
`(co2e, carbonModel)`. -/
theorem c3_carbonRating_explicit_first_le (cfg : Config) (q : ℚ) (s s' : CO2Data) :
    carbonRating cfg (some q) s
      = .str (firstBandLE q (ratingBands (ratingTableFor cfg.carbonModel)))
    ∧ carbonRating cfg (some q) s = carbonRating cfg (some q) s'
    ∧ carbonRating cfg (some ((ratingTableFor cfg.carbonModel).fifthPercentile)) s
      = .str "A+"
    ∧ ((ratingTableFor cfg.carbonModel).fiftiethPercentile < q →
        carbonRating cfg (some q) s = .str "F") := by
  refine ⟨by simp [carbonRating, ratingScale_eq_firstBandLE], rfl, ?_, ?_⟩
  · simp [carbonRating, ratingScale]
  · intro h
    by_cases hm : cfg.carbonModel = "swd3" <;>
      simp only [carbonRating, ratingScale, ratingTableFor, hm, if_true, if_false,
        SWDM3_RATINGS, SWDM4_RATINGS] at h ⊢ <;>
      split_ifs <;> first | rfl | (exfalso; linarith)

unseal Rat.mul Rat.inv Rat.add Rat.sub in
/-- C3 witness: a value above every `swd` (v4) threshold rates `"F"`, through
the theorem instantiated at the default configuration. -/
theorem c3_witness :
    carbonRating cfgDefault (some 1) initialCO2Data
      = .str (firstBandLE 1 (ratingBands (ratingTableFor cfgDefault.carbonModel)))
    ∧ carbonRating cfgDefault (some 1) initialCO2Data = .str "F" :=
  ⟨(c3_carbonRating_explicit_first_le cfgDefault 1 initialCO2Data initialCO2Data).1,
   (c3_carbonRating_explicit_first_le cfgDefault 1 initialCO2Data initialCO2Data).2.2.2
     (by decide)⟩

unseal Rat.mul Rat.inv Rat.add Rat.sub in
/-- C4: no threshold of the v3 table equals any threshold of the v4 table, and
the table a rating derivation uses is the one for the configured model version:
`swd3` selects the v3 table, `swd`/`swd4` select the v4 table, so neither model
version ever rates against the other's thresholds. -/
theorem c4_tables_disjoint_and_version_selected :
    ((ratingThresholds SWDM3_RATINGS).all fun a =>
        (ratingThresholds SWDM4_RATINGS).all fun b => !(a == b)) = true
    ∧ ratingTableFor "swd3" = SWDM3_RATINGS
    ∧ ratingTableFor "swd" = SWDM4_RATINGS
    ∧ ratingTableFor "swd4" = SWDM4_RATINGS
    ∧ decide (SWDM3_RATINGS = SWDM4_RATINGS) = false
    ∧ (∀ q s, carbonRating { cfgDefault with carbonModel := "swd3" } (some q) s
        = .str (firstBandLE q (ratingBands SWDM3_RATINGS)))
    ∧ (∀ q s, carbonRating { cfgDefault with carbonModel := "swd4" } (some q) s
        = .str (firstBandLE q (ratingBands SWDM4_RATINGS))) := by
  refine ⟨by decide, rfl, rfl, rfl, by decide, ?_, ?_⟩ <;>
    · intro q s
      simp [carbonRating, ratingScale_eq_firstBandLE, ratingTableFor]

/-- C5: estimating zero bytes returns 0 grams, stores total 0 with rating
`"A+"` when the configured model supports ratings and `null` otherwise, and
never calls the external carbon model (third component `false`), for every
green flag and every model configuration. -/
theorem c5_zero_bytes_short_circuit (cfg : Config) (m : CarbonModel) (g : Bool)
    (s : CO2Data) :
    bytesToCO2 cfg m 0 g s
      = (0,
         ⟨some 0, if modelSupportsCarbonRating cfg.carbonModel then .str "A+" else .null⟩,
         false) := rfl

/-- C10: `co2Data` is overwritten by every `bytesToCO2` call, so after
`bytesToCO2 b1` followed by `bytesToCO2 b2` the no-argument `carbonRating()`
read-back is exactly what it is after a lone `bytesToCO2 b2` from any prior
state — the rating derived from `b2`'s bytes (the model's native rating for
`b2`, or `"A+"` for zero bytes, or `null` for a model without rating support) —
with every trace of `b1` and of the earlier state gone. -/
theorem c10_co2Data_last_write_wins (cfg : Config) (m : CarbonModel)
    (g g' : Bool) (s₀ s₁ : CO2Data) (b1 b2 : ℚ) :
    (bytesToCO2 cfg m b2 g ((bytesToCO2 cfg m b1 g' s₀).2.1)).2.1
      = (bytesToCO2 cfg m b2 g s₁).2.1
    ∧ carbonRating cfg none ((bytesToCO2 cfg m b2 g ((bytesToCO2 cfg m b1 g' s₀).2.1)).2.1)
      = carbonRating cfg none ((bytesToCO2 cfg m b2 g s₁).2.1)
    ∧ carbonRating cfg none ((bytesToCO2 cfg m b2 g s₁).2.1)
      = (if modelSupportsCarbonRating cfg.carbonModel then
           (if b2 = 0 then JSVal.str "A+"
            else JSVal.str (m.perByteRating b2
              (if cfg.carbonModel = "swd3" then false else g)))
         else JSVal.null) := by
  refine ⟨rfl, rfl, ?_⟩
  by_cases hb : b2 = (0:ℚ) <;>
    by_cases hs : modelSupportsCarbonRating cfg.carbonModel <;>
      simp [carbonRating, bytesToCO2, hb, hs]

/-- C8: with the spec-modelled SWD conversion (a nonnegative per-byte factor,
green or not), the estimate is monotonically non-decreasing in bytes — the
zero-bytes special case included, since the special-cased 0 grams is below any
nonnegative estimate. -/
theorem c8_bytesToCO2_monotone (cfg : Config) (factor greenFactor : ℚ)
    (nr : ℚ → String) (hf : 0 ≤ factor) (hg : 0 ≤ greenFactor) (g : Bool)
    (s s' : CO2Data) (b1 b2 : ℚ) (hb : 0 ≤ b1) (h12 : b1 ≤ b2) :
    (bytesToCO2 cfg (swdPerByte factor greenFactor nr) b1 g s).1
      ≤ (bytesToCO2 cfg (swdPerByte factor greenFactor nr) b2 g s').1 := by
  unfold bytesToCO2 swdPerByte
  by_cases h1 : b1 = (0:ℚ) <;> by_cases h2 : b2 = (0:ℚ) <;>
    simp [h1, h2] <;> split_ifs <;> nlinarith

/-- C8 witness: the monotonicity theorem applied at concrete bytes 500 and
1500 with concrete nonnegative factors. -/
theorem c8_witness :
    (bytesToCO2 cfgDefault (swdPerByte (2/1000) (1/1000) (fun _ => "A+"))
        500 true initialCO2Data).1
      ≤ (bytesToCO2 cfgDefault (swdPerByte (2/1000) (1/1000) (fun _ => "A+"))
        1500 true initialCO2Data).1 :=
  c8_bytesToCO2_monotone cfgDefault (2/1000) (1/1000) (fun _ => "A+")
    (by norm_num) (by norm_num) true initialCO2Data initialCO2Data 500 1500
    (by norm_num) (by norm_num)

unseal Rat.mul Rat.inv Rat.add Rat.sub in
/-- C1 (code bug): when both a `--file` and a positional site URL are
supplied, `main`'s condition `siteUrl === null && sourceFile !== null` sends
the run down the sitemap/crawl branch of the site argument: the file is never
consulted — a run whose URL file is unreadable still completes with exit code
0 and a sitemap check in its trace, and no file-read error is ever reported —
the opposite of the claimed (and comment-documented) file precedence. -/
theorem c1_file_ignored_when_site_also_given :
    resolveSource (some "https://example.org/") (some "urls.txt")
      = UrlSource.fromSite (some "https://example.org/")
    ∧ (∀ f, resolveSource (some "https://example.org/") (some f)
        = UrlSource.fromSite (some "https://example.org/"))
    ∧ program worldFileUnreadable cfgBoth testModel ["https://example.org/"]
      = ([.sitemapChecked, .hostingChecked true, .browserLaunched,
          .measureStart "https://example.org/", .measureDone "https://example.org/",
          .measureStart "https://example.org/about", .measureDone "https://example.org/about",
          .measureStart "https://example.org/", .measureDone "https://example.org/",
          .measureStart "https://example.org/about", .measureDone "https://example.org/about",
          .summaryPrinted ⟨2, .num 1000, .num 1, some "F"⟩, .exited 0], 0) := by
  refine ⟨rfl, fun f => rfl, ?_⟩
  decide

unseal Rat.mul Rat.inv Rat.add Rat.sub in
/-- C2 (code bug): `isGreen = greenHosting(siteUrl)` is never awaited and has
no catch — the value reaching `if (isGreen)` and the estimation calls is the
pending promise, which is truthy whatever the lookup would return (so the
hosting flag is never treated as `false`), and when the lookup rejects the
rejection is unhandled and the run aborts with a nonzero exit instead of
proceeding. -/
theorem c2_hosting_failure_is_unhandled_and_flag_truthy :
    truthy (JSVal.promise (.error "service unavailable")) = true
    ∧ truthy (JSVal.promise (.ok false)) = true
    ∧ mainRun worldHostFail cfgDefault testModel (some "https://example.org/")
      = ([.sitemapChecked, .hostingChecked true, .unhandledRejection, .exited 1], 1) := by
  refine ⟨rfl, rfl, ?_⟩
  decide

unseal Rat.mul Rat.inv Rat.add Rat.sub in
/-- C6 (code bug): a run whose cold pass yields zero successful measurements
computes `0 / 0` averages — `NaN` — prints them in the summary (with overall
rating `"F"`, since `NaN` fails every threshold comparison), and exits 0: no
distinguishable no-data state and no nonzero exit. -/
theorem c6_empty_cold_pass_nan_summary_exit_zero :
    summarize cfgDefault [] = ⟨0, .nan, .nan, some "F"⟩
    ∧ (mainRun worldAllFail cfgDefault testModel (some "https://example.org/")).2 = 0
    ∧ Ev.summaryPrinted ⟨0, .nan, .nan, some "F"⟩
        ∈ (mainRun worldAllFail cfgDefault testModel (some "https://example.org/")).1 := by
  refine ⟨?_, ?_, ?_⟩ <;> decide

unseal Rat.mul Rat.inv Rat.add Rat.sub in
/-- C7 counterexample: a run with an unsupported measurement mode does exit 1,
but only inside the first page measurement — its trace shows the sitemap
check, the hosting lookup, the browser launch and the start of a measurement
all happening before the exit, so "exits non-zero immediately, before any page
measurement is attempted (no partial run occurs)" is false at this input. -/
theorem c7_counterexample_mode_checked_mid_run :
    program testWorld cfgBadMode testModel ["https://example.org/"]
      = ([.sitemapChecked, .hostingChecked true, .browserLaunched,
          .measureStart "https://example.org/", .errUnsupportedMode "bogus",
          .exited 1], 1) := by
  decide

/-- C7 (amended): an invalid positional URL and an unreadable URL file are
reported and exit 1 immediately, before any discovery or measurement; an
unsupported measurement mode is likewise reported with exit 1, but the check
sits inside the first page measurement that completes browser-side setup, so
when it fires the URL discovery, hosting lookup and browser launch have
already run. -/
theorem c7_amended_config_errors (w : World) (cfg : Config) (m : CarbonModel) :
    (∀ ps lastArg, ps.getLast? = some lastArg → w.validUrl lastArg = false →
        program w cfg m ps = ([.exited 1], 1))
    ∧ (∀ f e, cfg.sourceFile = some f → w.fileRead f = .error e →
        program w cfg m [] = ([.errFileRead f, .exited 1], 1))
    ∧ (∀ url cc g s, cfg.measureMode ≠ "cdp" → cfg.measureMode ≠ "buffer" →
        w.sessionOk url = true →
        measurePage w cfg m url cc g s
          = ([.measureStart url, .errUnsupportedMode cfg.measureMode, .exited 1],
             .error 1)) := by
  refine ⟨?_, ?_, ?_⟩
  · intro ps lastArg hlast hbad
    cases ps with
    | nil => simp at hlast
    | cons a as => simp [program, parsePositionalUrl, hlast, hbad]
  · intro f e hsrc hread
    simp [program, parsePositionalUrl, hsrc, mainRun, resolveSource, hread]
  · intro url cc g s hcdp hbuf hsess
    simp [measurePage, hsess, hcdp, hbuf]

unseal Rat.mul Rat.inv Rat.add Rat.sub in
/-- C7 witness: the amended theorem applied at concrete runs — an invalid
positional URL, an unreadable `--file`, and a `bogus` measurement mode. -/
theorem c7_witness :
    program testWorld cfgDefault testModel ["not-a-url"] = ([.exited 1], 1)
    ∧ program worldFileUnreadable cfgBoth testModel []
        = ([.errFileRead "urls.txt", .exited 1], 1)
    ∧ measurePage testWorld cfgBadMode testModel "https://example.org/" true false
        initialCO2Data
      = ([.measureStart "https://example.org/", .errUnsupportedMode "bogus",
          .exited 1], .error 1) :=
  ⟨(c7_amended_config_errors testWorld cfgDefault testModel).1
      ["not-a-url"] "not-a-url" rfl (by decide),
   (c7_amended_config_errors worldFileUnreadable cfgBoth testModel).2.1
      "urls.txt" "ENOENT: no such file or directory" rfl rfl,
   (c7_amended_config_errors testWorld cfgBadMode testModel).2.2
      "https://example.org/" true false initialCO2Data
      (by decide) (by decide) rfl⟩

unseal Rat.mul Rat.inv Rat.add Rat.sub in
/-- C9 (code bug): five URLs where page #3's navigation times out.
`measurePage`'s inner catch swallows the navigation error, so #3 still yields
a non-`null` record — `co2` is `null` and its `rating` field is the stale
`co2Data` rating left by page #2 (`"A+"`, although #3's own 100000 bytes
would rate `"F"`) — and the pass returns 5 records, not the claimed 4.  Only
a browser-session (outer) failure returns `null` and is filtered out, as the
same pass with #3's session failing instead shows: that one returns exactly
the other 4 measurements. -/
theorem c9_timeout_yields_non_null_record :
    (runPass worldThirdTimesOut cfgDefault testModel true true urls5
        initialCO2Data).2
      = .ok ([⟨"https://e.org/1", 10, some (1/100), .str "A+"⟩,
              ⟨"https://e.org/2", 10, some (1/100), .str "A+"⟩,
              ⟨"https://e.org/3", 100000, none, .str "A+"⟩,
              ⟨"https://e.org/4", 10, some (1/100), .str "A+"⟩,
              ⟨"https://e.org/5", 10, some (1/100), .str "A+"⟩],
             ⟨some (1/100), .str "A+"⟩)
    ∧ (runPass worldThirdSessionFails cfgDefault testModel true true urls5
        initialCO2Data).2
      = .ok ([⟨"https://e.org/1", 10, some (1/100), .str "A+"⟩,
              ⟨"https://e.org/2", 10, some (1/100), .str "A+"⟩,
              ⟨"https://e.org/4", 10, some (1/100), .str "A+"⟩,
              ⟨"https://e.org/5", 10, some (1/100), .str "A+"⟩],
             ⟨some (1/100), .str "A+"⟩) := by
  refine ⟨?_, ?_⟩ <;> decide

end WebsiteCarbon
